import Mathlib

/-
  Shallow embedding of the tg-video-downloader bot (src/bot.py).

  The embedding covers the request-token / resolution-selection workflow:
  * menu construction in `link_handler` (sort the raw format list descending
    by height, filter audio-only and zero-height entries, deduplicate by
    label, mint one token per surviving entry into `LINK_STORE`);
  * token resolution and the download orchestration in `button_handler`
    (atomic `LINK_STORE.pop`, cookie verification, scoped temporary
    directory, `download_format`, the 2 GiB size ceiling, upload, cleanup).

  External collaborators (yt-dlp, the Telegram transport, the filesystem)
  are modelled as explicit oracles passed to the handlers, and the
  nondeterministic token source `uuid.uuid4().hex[:10]` as a stream
  `supply : Nat → String` consumed in minting order.
-/

namespace TgBot

/-! ### Python string primitives

`String.splitOn` and friends do not reduce inside the kernel, so the
Python string operations used by bot.py are re-implemented structurally
on `List Char`. -/

/-- Helper for `pySplit`: accumulates the current field (reversed) while
walking the character list, emitting a field at every separator, exactly
like Python `str.split(sep)` with a one-character separator. -/
def pySplitAux (c : Char) : List Char → List Char → List (List Char)
  | [], acc => [acc.reverse]
  | x :: xs, acc =>
    if x = c then acc.reverse :: pySplitAux c xs []
    else pySplitAux c xs (x :: acc)

/-- Python `s.split(c)` for a single-character separator `c`
(used by `button_handler` as `query.data.split(":")`). -/
def pySplit (c : Char) (s : String) : List String :=
  (pySplitAux c s.data []).map String.mk

/-- Whether `pat` occurs at the head of `l` (prefix test on characters). -/
def subAt : List Char → List Char → Bool
  | [], _ => true
  | _ :: _, [] => false
  | p :: ps, x :: xs => p = x && subAt ps xs

/-- Occurrence of `pat` anywhere in `l`. -/
def subAnywhere (pat : List Char) : List Char → Bool
  | [] => pat.isEmpty
  | x :: xs => subAt pat (x :: xs) || subAnywhere pat xs

/-- Python `pat in s` on strings (used for the
"Sign in to confirm you\x27re not a bot" special case). -/
def pyIn (pat s : String) : Bool := subAnywhere pat.data s.data

/-- Python `s.strip()`: remove leading and trailing whitespace. -/
def pyStrip (s : String) : String :=
  String.mk ((((s.data.dropWhile Char.isWhitespace).reverse.dropWhile
    Char.isWhitespace)).reverse)

/-- Python `s.lower()`. -/
def pyLower (s : String) : String := String.mk (s.data.map Char.toLower)

/-- Python `s.startswith(pat)`. -/
def pyStartsWith (s pat : String) : Bool := subAt pat.data s.data

/-! ### Configuration (src/bot.py, line 26) -/

/-- Source: `TELEGRAM_FILE_LIMIT = 2 * 1024 * 1024 * 1024  # 2 GB`. -/
def TELEGRAM_FILE_LIMIT : Nat := 2 * 1024 * 1024 * 1024

/-! ### Data model -/

/-- One row of the list returned by yt-dlp under `info["formats"]`.
Only the keys read by `link_handler` are modelled; `height` and `vcodec`
are `Option`s because the Python code reads them with `dict.get`
(absent keys yield `None`), while `format_id` is read with `f["format_id"]`
and is therefore assumed present. -/
structure FormatEntry where
  format_id : String
  height : Option Nat
  vcodec : Option String
deriving Repr, DecidableEq

/-- Python `x.get("height") or 0`: absent and zero heights both become 0. -/
def keyHeight (f : FormatEntry) : Nat := f.height.getD 0

/-- One inline keyboard button produced by `link_handler`.  The source
stores `text = f"{height}p"` and `callback_data = f"{token}:{fmt_id}"`;
both are functions of the three fields kept here. -/
structure MenuButton where
  height : Nat
  token : String
  fmt_id : String
deriving Repr, DecidableEq

/-- The displayed label, Python `f"{height}p"`. -/
def MenuButton.label (b : MenuButton) : String := toString b.height ++ "p"

/-- The `callback_data` string, Python `f"{token}:{fmt_id}"`. -/
def MenuButton.cbData (b : MenuButton) : String := b.token ++ ":" ++ b.fmt_id

/-- Source: `LINK_STORE: dict[str, str]`, the in-memory token-to-URL map,
modelled as a partial map; a Python dict binds each key to at most one
value, which the function space makes intrinsic. -/
def TokenStore : Type := String → Option String

/-- Python `LINK_STORE[token] = url`. -/
def storeInsert (store : TokenStore) (k v : String) : TokenStore :=
  fun x => if x = k then some v else store x

/-- Python `LINK_STORE.pop(token)`: atomically look up and remove; `none` models
the `KeyError` raised when the key is absent. -/
def storePop (store : TokenStore) (k : String) : Option (String × TokenStore) :=
  match store k with
  | none => none
  | some v => some (v, fun x => if x = k then none else store x)

/-! ### `sorted(formats, key=lambda x: (x.get("height") or 0), reverse=True)`

Python `sorted` is a stable sort; a stable sort's output is uniquely
determined by the key order and the input order, so the structurally
recursive stable insertion sort below computes exactly the same list. -/

/-- Insert `x` before the first element whose key is not `≥ keyHeight x`;
keeps `x` before existing equal-key elements (stability, matching
Python `reverse=True` descending order with ties in input order). -/
def insertDesc (x : FormatEntry) : List FormatEntry → List FormatEntry
  | [] => [x]
  | y :: ys => if keyHeight y ≤ keyHeight x then x :: y :: ys else y :: insertDesc x ys

/-- Stable descending-by-height sort of a format list. -/
def pySortDesc : List FormatEntry → List FormatEntry
  | [] => []
  | x :: xs => insertDesc x (pySortDesc xs)

/-! ### Menu construction (src/bot.py, lines 288-305) -/

/-- The loop state of `link_handler`'s button-building loop:
`buttons`, `seen_labels`, the global `LINK_STORE`, and the index of the
next token drawn from the uuid supply. -/
structure SelState where
  buttons : List MenuButton
  seen_labels : List String
  store : TokenStore
  next : Nat

/-- One iteration of the `for f in sorted(...)` loop of `link_handler`:
skip entries with `vcodec == "none"`, zero/absent height, or an
already-seen label; otherwise mint a token, register the pending request
in the store, and append a button. -/
def selectStep (url : String) (supply : Nat → String) (st : SelState)
    (f : FormatEntry) : SelState :=
  if f.vcodec = some "none" then st
  else
    let height := f.height.getD 0
    if height = 0 then st
    else
      let label := toString height ++ "p"
      if st.seen_labels.contains label then st
      else
        let token := supply st.next
        { buttons := st.buttons ++ [{ height := height, token := token, fmt_id := f.format_id }]
          seen_labels := label :: st.seen_labels
          store := storeInsert st.store token url
          next := st.next + 1 }

/-- The whole button-building loop of `link_handler`, starting from an
empty menu and the current store. -/
def buildMenu (url : String) (supply : Nat → String) (store : TokenStore)
    (formats : List FormatEntry) : SelState :=
  (pySortDesc formats).foldl (selectStep url supply) ⟨[], [], store, 0⟩

/-! ### `link_handler` (src/bot.py, lines 260-316) -/

/-- The part of the yt-dlp `extract_info` result read by `link_handler`:
`info.get("title")` and `info.get("formats")`. -/
structure ExtractInfo where
  title : Option String
  formats : Option (List FormatEntry)

/-- Python `x or default` on an optional string: `None` and `""` are falsy. -/
def pyOrStr (o : Option String) (d : String) : String :=
  match o with
  | none => d
  | some s => if s = "" then d else s

/-- Mutable bot-process state touched by the handlers: the token store,
the cookie-file status (`has_cookies()` / `verify_cookies()`), and the
number of live scoped temporary directories. -/
structure BotState where
  store : TokenStore
  cookiesPresent : Bool
  cookiesValid : Bool
  liveDirs : Nat

/-- The user-visible terminating replies of `link_handler`. -/
inductive LinkOutcome where
  | invalidUrl
  | cookiesCorrupted
  | extractionFailed (msg : String)
  | noDownloadableFormat
  | menuShown (title : String) (buttons : List MenuButton)
deriving Repr, DecidableEq

/-- Handler `link_handler`: validate the URL, check cookie integrity, call the
Format Lister (its behaviour passed as the oracle `extractResult`), build
the menu, and either report `NoDownloadableFormat` or show the menu. -/
def link_handler (st : BotState) (supply : Nat → String) (text : String)
    (extractResult : Except String ExtractInfo) : LinkOutcome × BotState :=
  let url := pyStrip text
  if !(pyStartsWith (pyLower url) "http://" || pyStartsWith (pyLower url) "https://") then
    (.invalidUrl, st)
  else if st.cookiesPresent && !st.cookiesValid then
    (.cookiesCorrupted, st)
  else
    match extractResult with
    | .error e => (.extractionFailed e, st)
    | .ok info =>
      let video_title := pyOrStr info.title "video"
      let formats := info.formats.getD []
      let sel := buildMenu url supply st.store formats
      if sel.buttons.isEmpty then (.noDownloadableFormat, { st with store := sel.store })
      else (.menuShown video_title sel.buttons, { st with store := sel.store })

/-! ### `download_format` and `button_handler` (src/bot.py, lines 103-125, 318-391) -/

/-- A file materialized in the working directory: its stem
(`pathlib.Path.stem`) and its size in bytes (`stat().st_size`). -/
structure DFile where
  stem : String
  size : Nat
deriving Repr, DecidableEq

/-- Result of `query.message.reply_video` under `asyncio.wait_for`:
success, `asyncio.TimeoutError`, or another exception. -/
inductive UploadRes where
  | ok
  | timeout
  | err (msg : String)
deriving Repr, DecidableEq

/-- Behaviour of the external collaborators during one `button_handler`
run: what `ydl.download` leaves in the working directory (or the message
of the exception it raises), and how the upload ends. -/
structure DlEnv where
  ydl : String → String → Except String (List DFile)
  upload : DFile → UploadRes

/-- Function `download_format(url, fmt, out_path)` with `out_path = temp_dir / "video"`:
run the downloader, then scan the directory for a file whose stem is
`"video"`; if none is found despite success, raise
`FileNotFoundError("Downloaded file not found")`. -/
def download_format (env : DlEnv) (url fmt_id : String) : Except String DFile :=
  match env.ydl url fmt_id with
  | .error e => .error e
  | .ok files =>
    match files.find? (fun p => p.stem == "video") with
    | some p => .ok p
    | none => .error "Downloaded file not found"

/-- The user-visible terminating replies of `button_handler`. -/
inductive BtnOutcome where
  | expired
  | cookiesCorrupted
  | authRequired
  | downloadFailed (msg : String)
  | fileTooLarge
  | uploadTimedOut
  | uploadFailed (msg : String)
  | delivered
deriving Repr, DecidableEq

/-- Python `token, fmt_id = query.data.split(":")`: succeeds only when the split
yields exactly two fields; otherwise the `ValueError` is caught by the
same `except` as an absent token. -/
def pySplitUnpack2 (data : String) : Option (String × String) :=
  match pySplit ':' data with
  | [a, b] => some (a, b)
  | _ => none

/-- Python `tempfile.mkdtemp` with the download directory name pattern: one more live working directory. -/
def mkdtemp (st : BotState) : BotState := { st with liveDirs := st.liveDirs + 1 }

/-- Python `shutil.rmtree(temp_dir, ignore_errors=True)`: the directory and its
contents are gone. -/
def rmtree (st : BotState) : BotState := { st with liveDirs := st.liveDirs - 1 }

/-- The message searched for in the downloader's exception text. -/
def signInMarker : String := "Sign in to confirm you\x27re not a bot"

/-- Mapping of the upload attempt's result to the handler's reply
(`try: reply_video ... except asyncio.TimeoutError ... except Exception`). -/
def deliverOutcome : UploadRes → BtnOutcome
  | .ok => .delivered
  | .timeout => .uploadTimedOut
  | .err m => .uploadFailed m

/-- Handler `button_handler`: split the callback data, pop the token (failure of
either step answers "Expired. Send the link again."), re-verify cookies,
create the scoped working directory, download, enforce the size ceiling,
upload, and remove the working directory on every terminating path. -/
def button_handler (st : BotState) (env : DlEnv) (data : String) :
    BtnOutcome × BotState :=
  match pySplitUnpack2 data with
  | none => (.expired, st)
  | some (token, fmt_id) =>
    match storePop st.store token with
    | none => (.expired, st)
    | some (url, store2) =>
      if st.cookiesPresent && !st.cookiesValid then
        (.cookiesCorrupted, { st with store := store2 })
      else
        let std := mkdtemp { st with store := store2 }
        match download_format env url fmt_id with
        | .error e =>
          if pyIn signInMarker e then (.authRequired, rmtree std)
          else (.downloadFailed e, rmtree std)
        | .ok file =>
          if file.size > TELEGRAM_FILE_LIMIT then (.fileTooLarge, rmtree std)
          else (deliverOutcome (env.upload file), rmtree std)

/-! ### Derived relations and concrete runs used by the development -/

/-- The order used by `sorted(..., key=..., reverse=True)`:
`a` may precede `b` when `a`'s key is at least `b`'s. -/
def GeKey (a b : FormatEntry) : Prop := keyHeight b ≤ keyHeight a

/-- The menu's ordering invariant: heights strictly decrease along the list. -/
def StrictDescMenu (bs : List MenuButton) : Prop :=
  bs.Pairwise (fun a b => b.height < a.height)

/-- Concrete bot state for witnesses: one pending token, no cookies. -/
def c5St : BotState :=
  { store := fun _ => none, cookiesPresent := false, cookiesValid := false,
    liveDirs := 0 }

/-- An extraction result whose entries are all audio-only or heightless. -/
def c5Info : ExtractInfo :=
  ⟨some "T", some [⟨"d", some 0, some "none"⟩, ⟨"e", none, some "avc1"⟩]⟩

/-- The raw format list of the end-to-end scenario of the spec. -/
def c7Formats : List FormatEntry :=
  [⟨"a", some 1080, some "avc1"⟩, ⟨"b", some 720, some "avc1"⟩,
   ⟨"c", some 720, some "vp9"⟩, ⟨"d", some 0, some "none"⟩]

/-- Two format entries of distinct heights: the menu loop mints twice. -/
def c8Formats : List FormatEntry :=
  [⟨"a", some 1080, some "avc1"⟩, ⟨"b", some 720, some "avc1"⟩]

/-- An injective token supply for the C8 witness. -/
def c8Supply : Nat → String := fun n => String.mk (List.replicate n 'x')

/-- Model of two concurrent activations of the same menu button: each
handler's only access to the shared `LINK_STORE` is its single atomic
`pop` (no await point between lookup and removal), so any interleaving of
the two tasks executes the two pops in one of the two orders; `aFirst`
is the scheduler's choice.  Each component of the result is the request
obtained by the respective attempt (`none` = `ExpiredOrInvalidToken`). -/
def twoResolveAttempts (store : TokenStore) (t : String) (aFirst : Bool) :
    Option String × Option String :=
  if aFirst then
    match storePop store t with
    | none => (none, (storePop store t).map Prod.fst)
    | some (v, s2) => (some v, (storePop s2 t).map Prod.fst)
  else
    match storePop store t with
    | none => ((storePop store t).map Prod.fst, none)
    | some (v, s2) => ((storePop s2 t).map Prod.fst, some v)

/-- State with one live token `"t"` for the witnesses. -/
def wSt : BotState :=
  { store := fun k => if k = "t" then some "https://v" else none,
    cookiesPresent := false, cookiesValid := false, liveDirs := 0 }

/-- A benign download environment: one file of 100 bytes, upload succeeds. -/
def wEnv : DlEnv :=
  { ydl := fun _ _ => .ok [{ stem := "video", size := 100 }],
    upload := fun _ => .ok }

/-- Download environment leaving a file exactly at the ceiling. -/
def wEnvAtLimit : DlEnv :=
  { ydl := fun _ _ => .ok [{ stem := "video", size := TELEGRAM_FILE_LIMIT }],
    upload := fun _ => .ok }

/-- Download environment leaving a file one byte over the ceiling. -/
def wEnvOverLimit : DlEnv :=
  { ydl := fun _ _ => .ok [{ stem := "video", size := TELEGRAM_FILE_LIMIT + 1 }],
    upload := fun _ => .ok }

/-- Downloader reports success but leaves no file at all. -/
def wEnvNoFile : DlEnv :=
  { ydl := fun _ _ => .ok [], upload := fun _ => .ok }

/-- The witness state for C10: same live token, corrupted cookies. -/
def wStBadCookies : BotState :=
  { store := fun k => if k = "t" then some "https://v" else none,
    cookiesPresent := true, cookiesValid := false, liveDirs := 0 }

/-! ### Theorems -/

theorem mem_insertDesc {x a : FormatEntry} {l : List FormatEntry} :
    a ∈ insertDesc x l ↔ a = x ∨ a ∈ l := by
  induction l with
  | nil => simp [insertDesc]
  | cons y ys ih =>
    simp only [insertDesc]
    split
    · simp [List.mem_cons]
    · simp only [List.mem_cons, ih]
      tauto

theorem mem_pySortDesc {a : FormatEntry} {l : List FormatEntry} :
    a ∈ pySortDesc l ↔ a ∈ l := by
  induction l with
  | nil => simp [pySortDesc]
  | cons x xs ih => simp [pySortDesc, mem_insertDesc, ih]

theorem pairwise_insertDesc {x : FormatEntry} {l : List FormatEntry}
    (h : l.Pairwise GeKey) : (insertDesc x l).Pairwise GeKey := by
  induction l with
  | nil => simp [insertDesc, GeKey]
  | cons y ys ih =>
    rw [List.pairwise_cons] at h
    obtain ⟨hy, hys⟩ := h
    simp only [insertDesc]
    split
    · rename_i hle
      rw [List.pairwise_cons]
      refine ⟨fun z hz => ?_, List.pairwise_cons.mpr ⟨hy, hys⟩⟩
      rcases List.mem_cons.mp hz with rfl | hz
      · exact hle
      · exact le_trans (hy z hz) hle
    · rename_i hgt
      rw [List.pairwise_cons]
      refine ⟨fun z hz => ?_, ih hys⟩
      rcases mem_insertDesc.mp hz with rfl | hz
      · exact le_of_lt (Nat.lt_of_not_le hgt)
      · exact hy z hz

theorem pairwise_pySortDesc (l : List FormatEntry) : (pySortDesc l).Pairwise GeKey := by
  induction l with
  | nil => simp [pySortDesc]
  | cons x xs ih => exact pairwise_insertDesc ih

theorem buildLoop_inv (url : String) (supply : Nat → String)
    (l : List FormatEntry) : ∀ st : SelState,
    l.Pairwise GeKey →
    (∀ b ∈ st.buttons, 0 < b.height) →
    StrictDescMenu st.buttons →
    (∀ b ∈ st.buttons, (toString b.height ++ "p") ∈ st.seen_labels) →
    (∀ f ∈ l, ∀ b ∈ st.buttons, keyHeight f ≤ b.height) →
    (∀ b ∈ (l.foldl (selectStep url supply) st).buttons, 0 < b.height) ∧
    StrictDescMenu (l.foldl (selectStep url supply) st).buttons ∧
    (∀ b ∈ (l.foldl (selectStep url supply) st).buttons,
      b ∈ st.buttons ∨
        ∃ f ∈ l, f.vcodec ≠ some "none" ∧ f.height.getD 0 = b.height ∧
          f.format_id = b.fmt_id) := by
  induction l with
  | nil =>
    intro st _ h1 h2 _ _
    exact ⟨h1, h2, fun b hb => Or.inl hb⟩
  | cons f l ih =>
    intro st hsort hpos hdesc hseen hbound
    rw [List.pairwise_cons] at hsort
    obtain ⟨hf, hsort⟩ := hsort
    rw [List.foldl_cons]
    by_cases hv : f.vcodec = some "none"
    · rw [show selectStep url supply st f = st by simp [selectStep, hv]]
      have h := ih st hsort hpos hdesc hseen
        (fun g hg => hbound g (List.mem_cons_of_mem f hg))
      exact ⟨h.1, h.2.1, fun b hb => (h.2.2 b hb).elim Or.inl
        (fun ⟨g, hg, hr⟩ => Or.inr ⟨g, List.mem_cons_of_mem f hg, hr⟩)⟩
    · by_cases hh : f.height.getD 0 = 0
      · rw [show selectStep url supply st f = st by simp [selectStep, hv, hh]]
        have h := ih st hsort hpos hdesc hseen
          (fun g hg => hbound g (List.mem_cons_of_mem f hg))
        exact ⟨h.1, h.2.1, fun b hb => (h.2.2 b hb).elim Or.inl
          (fun ⟨g, hg, hr⟩ => Or.inr ⟨g, List.mem_cons_of_mem f hg, hr⟩)⟩
      · by_cases hs : (toString (f.height.getD 0) ++ "p") ∈ st.seen_labels
        · rw [show selectStep url supply st f = st by simp [selectStep, hv, hh, hs]]
          have h := ih st hsort hpos hdesc hseen
            (fun g hg => hbound g (List.mem_cons_of_mem f hg))
          exact ⟨h.1, h.2.1, fun b hb => (h.2.2 b hb).elim Or.inl
            (fun ⟨g, hg, hr⟩ => Or.inr ⟨g, List.mem_cons_of_mem f hg, hr⟩)⟩
        · have hstep : selectStep url supply st f =
              { buttons := st.buttons ++
                  [{ height := f.height.getD 0, token := supply st.next,
                     fmt_id := f.format_id }]
                seen_labels := (toString (f.height.getD 0) ++ "p") :: st.seen_labels
                store := storeInsert st.store (supply st.next) url
                next := st.next + 1 } := by
            simp [selectStep, hv, hh, hs]
          rw [hstep]
          have hcross : ∀ a ∈ st.buttons, f.height.getD 0 < a.height := by
            intro a ha
            have hle : keyHeight f ≤ a.height := hbound f (List.mem_cons_self f l) a ha
            rcases Nat.lt_or_ge (keyHeight f) a.height with hlt | hge
            · exact hlt
            · exfalso
              apply hs
              have heq : a.height = f.height.getD 0 := le_antisymm hge hle
              have hmem := hseen a ha
              rw [heq] at hmem
              exact hmem
          have hpos' : ∀ b ∈ st.buttons ++
              [({ height := f.height.getD 0, token := supply st.next,
                  fmt_id := f.format_id } : MenuButton)], 0 < b.height := by
            intro b hb
            rcases List.mem_append.mp hb with hb | hb
            · exact hpos b hb
            · simp only [List.mem_singleton] at hb
              subst hb
              exact Nat.pos_of_ne_zero hh
          have hdesc' : StrictDescMenu (st.buttons ++
              [({ height := f.height.getD 0, token := supply st.next,
                  fmt_id := f.format_id } : MenuButton)]) := by
            unfold StrictDescMenu
            rw [List.pairwise_append]
            refine ⟨hdesc, by simp, fun a ha b hb => ?_⟩
            simp only [List.mem_singleton] at hb
            subst hb
            exact hcross a ha
          have hseen' : ∀ b ∈ st.buttons ++
              [({ height := f.height.getD 0, token := supply st.next,
                  fmt_id := f.format_id } : MenuButton)],
              (toString b.height ++ "p") ∈
                (toString (f.height.getD 0) ++ "p") :: st.seen_labels := by
            intro b hb
            rcases List.mem_append.mp hb with hb | hb
            · exact List.mem_cons_of_mem _ (hseen b hb)
            · simp only [List.mem_singleton] at hb
              subst hb
              exact List.mem_cons_self _ _
          have hbound' : ∀ g ∈ l, ∀ b ∈ st.buttons ++
              [({ height := f.height.getD 0, token := supply st.next,
                  fmt_id := f.format_id } : MenuButton)], keyHeight g ≤ b.height := by
            intro g hg b hb
            rcases List.mem_append.mp hb with hb | hb
            · exact hbound g (List.mem_cons_of_mem f hg) b hb
            · simp only [List.mem_singleton] at hb
              subst hb
              exact hf g hg
          have h := ih
            { buttons := st.buttons ++
                [{ height := f.height.getD 0, token := supply st.next,
                   fmt_id := f.format_id }]
              seen_labels := (toString (f.height.getD 0) ++ "p") :: st.seen_labels
              store := storeInsert st.store (supply st.next) url
              next := st.next + 1 } hsort hpos' hdesc' hseen' hbound'
          refine ⟨h.1, h.2.1, fun b hb => ?_⟩
          rcases h.2.2 b hb with hb' | ⟨g, hg, hr⟩
          · rcases List.mem_append.mp hb' with hb' | hb'
            · exact Or.inl hb'
            · simp only [List.mem_singleton] at hb'
              subst hb'
              exact Or.inr ⟨f, List.mem_cons_self f l, hv, rfl, rfl⟩
          · exact Or.inr ⟨g, List.mem_cons_of_mem f hg, hr⟩

/-- C1: for every raw format list, the menu built by `link_handler`
contains at most one entry per distinct height (heights pairwise
distinct), is ordered strictly descending by height, and every entry
stems from a raw format entry carrying a video stream
(`vcodec != "none"`) and a present, non-zero height. -/
theorem c1_menu_dedup_sorted_filtered (url : String) (supply : Nat → String)
    (store : TokenStore) (formats : List FormatEntry) :
    ((buildMenu url supply store formats).buttons.map MenuButton.height).Nodup ∧
    ((buildMenu url supply store formats).buttons.Pairwise
      (fun a b => b.height < a.height)) ∧
    (∀ b ∈ (buildMenu url supply store formats).buttons, 0 < b.height) ∧
    (∀ b ∈ (buildMenu url supply store formats).buttons,
      ∃ f ∈ formats, f.vcodec ≠ some "none" ∧ f.height.getD 0 = b.height ∧
        f.format_id = b.fmt_id) := by
  have h := buildLoop_inv url supply (pySortDesc formats) ⟨[], [], store, 0⟩
    (pairwise_pySortDesc formats) (by simp) (by simp [StrictDescMenu])
    (by simp) (by simp)
  have hdesc : (buildMenu url supply store formats).buttons.Pairwise
      (fun a b => b.height < a.height) := h.2.1
  refine ⟨?_, hdesc, h.1, fun b hb => ?_⟩
  · have hne : (buildMenu url supply store formats).buttons.Pairwise
        (fun a b => a.height ≠ b.height) := hdesc.imp (fun hlt => ne_of_gt hlt)
    exact List.pairwise_map.mpr hne
  · rcases h.2.2 b hb with hb' | ⟨f, hf, hr⟩
    · simp at hb'
    · exact ⟨f, mem_pySortDesc.mp hf, hr⟩

theorem buildLoop_skip_all (url : String) (supply : Nat → String)
    (l : List FormatEntry) : ∀ st : SelState,
    (∀ f ∈ l, f.vcodec = some "none" ∨ f.height.getD 0 = 0) →
    l.foldl (selectStep url supply) st = st := by
  induction l with
  | nil => intro st _; rfl
  | cons f l ih =>
    intro st hall
    rw [List.foldl_cons]
    have hstep : selectStep url supply st f = st := by
      rcases hall f (List.mem_cons_self f l) with h | h
      · simp [selectStep, h]
      · simp [selectStep, h]
    rw [hstep]
    exact ih st (fun g hg => hall g (List.mem_cons_of_mem f hg))

theorem buildLoop_minted (url : String) (supply : Nat → String)
    (l : List FormatEntry) : ∀ st : SelState,
    ∃ k, (l.foldl (selectStep url supply) st).next = st.next + k ∧
      (l.foldl (selectStep url supply) st).buttons.map MenuButton.token =
        st.buttons.map MenuButton.token ++ (List.range' st.next k).map supply := by
  induction l with
  | nil => intro st; exact ⟨0, rfl, by simp⟩
  | cons f l ih =>
    intro st
    rw [List.foldl_cons]
    by_cases hv : f.vcodec = some "none"
    · rw [show selectStep url supply st f = st by simp [selectStep, hv]]
      exact ih st
    · by_cases hh : f.height.getD 0 = 0
      · rw [show selectStep url supply st f = st by simp [selectStep, hv, hh]]
        exact ih st
      · by_cases hs : (toString (f.height.getD 0) ++ "p") ∈ st.seen_labels
        · rw [show selectStep url supply st f = st by simp [selectStep, hv, hh, hs]]
          exact ih st
        · have hstep : selectStep url supply st f =
              { buttons := st.buttons ++
                  [{ height := f.height.getD 0, token := supply st.next,
                     fmt_id := f.format_id }]
                seen_labels := (toString (f.height.getD 0) ++ "p") :: st.seen_labels
                store := storeInsert st.store (supply st.next) url
                next := st.next + 1 } := by
            simp [selectStep, hv, hh, hs]
          rw [hstep]
          obtain ⟨k, hn, ht⟩ := ih
            { buttons := st.buttons ++
                [{ height := f.height.getD 0, token := supply st.next,
                   fmt_id := f.format_id }]
              seen_labels := (toString (f.height.getD 0) ++ "p") :: st.seen_labels
              store := storeInsert st.store (supply st.next) url
              next := st.next + 1 }
          refine ⟨k + 1, by simpa [Nat.add_assoc, Nat.add_comm 1 k] using hn, ?_⟩
          rw [ht]
          simp only [List.map_append, List.map_cons, List.map_nil]
          rw [List.range'_succ]
          simp [List.append_assoc]

theorem buildLoop_store_inv (url : String) (supply : Nat → String)
    (l : List FormatEntry) : ∀ st : SelState,
    (∀ b ∈ st.buttons, st.store b.token = some url) →
    ∀ b ∈ (l.foldl (selectStep url supply) st).buttons,
      (l.foldl (selectStep url supply) st).store b.token = some url := by
  induction l with
  | nil => intro st h; exact h
  | cons f l ih =>
    intro st hinv
    rw [List.foldl_cons]
    by_cases hv : f.vcodec = some "none"
    · rw [show selectStep url supply st f = st by simp [selectStep, hv]]
      exact ih st hinv
    · by_cases hh : f.height.getD 0 = 0
      · rw [show selectStep url supply st f = st by simp [selectStep, hv, hh]]
        exact ih st hinv
      · by_cases hs : (toString (f.height.getD 0) ++ "p") ∈ st.seen_labels
        · rw [show selectStep url supply st f = st by simp [selectStep, hv, hh, hs]]
          exact ih st hinv
        · have hstep : selectStep url supply st f =
              { buttons := st.buttons ++
                  [{ height := f.height.getD 0, token := supply st.next,
                     fmt_id := f.format_id }]
                seen_labels := (toString (f.height.getD 0) ++ "p") :: st.seen_labels
                store := storeInsert st.store (supply st.next) url
                next := st.next + 1 } := by
            simp [selectStep, hv, hh, hs]
          rw [hstep]
          apply ih
          intro b hb
          rcases List.mem_append.mp hb with hb | hb
          · show (if b.token = supply st.next then some url else st.store b.token) = some url
            split
            · rfl
            · exact hinv b hb
          · simp only [List.mem_singleton] at hb
            subst hb
            simp [storeInsert]

/-- C5: if every raw format entry is audio-only (`vcodec == "none"`) or has
zero/absent height, `link_handler` builds zero menu entries, replies with
the terminal `NoDownloadableFormat` failure, and leaves the token store
untouched (no retry, nothing minted). -/
theorem c5_no_downloadable_format (st : BotState) (supply : Nat → String)
    (text : String) (info : ExtractInfo)
    (hurl : (pyStartsWith (pyLower (pyStrip text)) "http://" ||
             pyStartsWith (pyLower (pyStrip text)) "https://") = true)
    (hcook : (st.cookiesPresent && !st.cookiesValid) = false)
    (hall : ∀ f ∈ info.formats.getD [], f.vcodec = some "none" ∨ f.height.getD 0 = 0) :
    (link_handler st supply text (.ok info)).1 = .noDownloadableFormat ∧
    (link_handler st supply text (.ok info)).2.store = st.store ∧
    (buildMenu (pyStrip text) supply st.store (info.formats.getD [])).buttons = [] := by
  have hb : buildMenu (pyStrip text) supply st.store (info.formats.getD []) =
      ⟨[], [], st.store, 0⟩ := by
    unfold buildMenu
    exact buildLoop_skip_all _ _ _ _ (fun f hf => hall f (mem_pySortDesc.mp hf))
  refine ⟨?_, ?_, by rw [hb]⟩ <;>
    simp [link_handler, hurl, hcook, hb]

theorem c5_witness :
    (link_handler c5St (fun n => "tk" ++ toString n) "https://v" (.ok c5Info)).1 =
      .noDownloadableFormat ∧
    (link_handler c5St (fun n => "tk" ++ toString n) "https://v" (.ok c5Info)).2.store =
      c5St.store :=
  let h := c5_no_downloadable_format c5St (fun n => "tk" ++ toString n) "https://v"
    c5Info (by decide) (by decide) (by decide)
  ⟨h.1, h.2.1⟩

/-- C7: on the list 1080p/"a", 720p/"b", 720p/"c" (duplicate height),
0p/"d" (audio-only), menu construction yields exactly the two entries
1080p bound to "a" and 720p bound to "b" (first-encountered wins after
the stable descending sort), each token mapped to the URL. -/
theorem c7_concrete_menu :
    (buildMenu "https://v" (fun n => "tk" ++ toString n) (fun _ => none)
        c7Formats).buttons =
      [{ height := 1080, token := "tk0", fmt_id := "a" },
       { height := 720, token := "tk1", fmt_id := "b" }] ∧
    (buildMenu "https://v" (fun n => "tk" ++ toString n) (fun _ => none)
        c7Formats).store "tk0" = some "https://v" ∧
    (buildMenu "https://v" (fun n => "tk" ++ toString n) (fun _ => none)
        c7Formats).store "tk1" = some "https://v" := by
  decide

/-- C8 counterexample: the code never checks freshness of the uuid-derived
token, so with a token source that repeats (possible, however unlikely,
for `uuid4().hex[:10]`), the second minted token equals a token already
present in the store — uniqueness at issuance fails as an unconditional
statement. -/
theorem c8_duplicate_token_counterexample :
    ((buildMenu "https://v" (fun _ => "t") (fun _ => none) c8Formats).buttons.map
        MenuButton.token = ["t", "t"]) ∧
    ¬ ((buildMenu "https://v" (fun _ => "t") (fun _ => none) c8Formats).buttons.map
        MenuButton.token).Nodup := by
  decide

/-- C8 (amended): the store maps each token to at most one pending request
(intrinsic to the dict model), and provided the token supply never repeats
and never hits a key already present — the guarantee `uuid4` is relied
upon for — every minted token is unique at issuance: the minted tokens
are pairwise distinct, absent from the prior store, and each is bound to
the submitted URL afterwards. -/
theorem c8_token_uniqueness_fresh_supply (url : String) (supply : Nat → String)
    (store0 : TokenStore) (formats : List FormatEntry)
    (hinj : ∀ i j : Nat, supply i = supply j → i = j)
    (hfresh : ∀ i : Nat, store0 (supply i) = none) :
    ((buildMenu url supply store0 formats).buttons.map MenuButton.token).Nodup ∧
    (∀ b ∈ (buildMenu url supply store0 formats).buttons,
      store0 b.token = none ∧
      (buildMenu url supply store0 formats).store b.token = some url) := by
  obtain ⟨k, hn, ht⟩ :=
    buildLoop_minted url supply (pySortDesc formats) ⟨[], [], store0, 0⟩
  have ht' : (buildMenu url supply store0 formats).buttons.map MenuButton.token =
      (List.range' 0 k).map supply := by
    unfold buildMenu
    rw [ht]
    simp
  refine ⟨?_, fun b hb => ⟨?_, ?_⟩⟩
  · rw [ht']
    exact (List.nodup_range' 0 k).map hinj
  · have hmem : b.token ∈ (List.range' 0 k).map supply := by
      rw [← ht']
      exact List.mem_map_of_mem MenuButton.token hb
    obtain ⟨i, _, hi⟩ := List.mem_map.mp hmem
    rw [← hi]
    exact hfresh i
  · exact buildLoop_store_inv url supply (pySortDesc formats) ⟨[], [], store0, 0⟩
      (by simp) b hb

theorem c8_supply_injective : ∀ i j : Nat, c8Supply i = c8Supply j → i = j := by
  intro i j h
  have hd : (c8Supply i).data = (c8Supply j).data := by rw [h]
  simp only [c8Supply, String.data] at hd
  have := congrArg List.length hd
  simpa using this

theorem c8_witness :
    ((buildMenu "https://v" c8Supply (fun _ => none) c8Formats).buttons.map
      MenuButton.token).Nodup ∧
    (∀ b ∈ (buildMenu "https://v" c8Supply (fun _ => none) c8Formats).buttons,
      (fun _ => (none : Option String)) b.token = none ∧
      (buildMenu "https://v" c8Supply (fun _ => none) c8Formats).store b.token =
        some "https://v") :=
  c8_token_uniqueness_fresh_supply "https://v" c8Supply (fun _ => none) c8Formats
    c8_supply_injective (fun _ => rfl)

theorem storePop_hit {store : TokenStore} {k v : String} (h : store k = some v) :
    storePop store k = some (v, fun x => if x = k then none else store x) := by
  unfold storePop
  rw [h]

theorem storePop_miss {store : TokenStore} {k : String} (h : store k = none) :
    storePop store k = none := by
  unfold storePop
  rw [h]

theorem button_handler_badsplit {st : BotState} {env : DlEnv} {data : String}
    (hsplit : pySplitUnpack2 data = none) :
    button_handler st env data = (.expired, st) := by
  unfold button_handler
  simp only [hsplit]

theorem button_handler_deadtoken {st : BotState} {env : DlEnv}
    {data token fmt_id : String}
    (hsplit : pySplitUnpack2 data = some (token, fmt_id))
    (hpop : storePop st.store token = none) :
    button_handler st env data = (.expired, st) := by
  unfold button_handler
  simp only [hsplit, hpop]

theorem button_handler_resolved {st : BotState} {env : DlEnv}
    {data token fmt_id url : String} {store2 : TokenStore}
    (hsplit : pySplitUnpack2 data = some (token, fmt_id))
    (hpop : storePop st.store token = some (url, store2)) :
    button_handler st env data =
      (if st.cookiesPresent && !st.cookiesValid then
        (.cookiesCorrupted, { st with store := store2 })
      else
        match download_format env url fmt_id with
        | .error e =>
          if pyIn signInMarker e then
            (.authRequired, rmtree (mkdtemp { st with store := store2 }))
          else (.downloadFailed e, rmtree (mkdtemp { st with store := store2 }))
        | .ok file =>
          if file.size > TELEGRAM_FILE_LIMIT then
            (.fileTooLarge, rmtree (mkdtemp { st with store := store2 }))
          else (deliverOutcome (env.upload file),
            rmtree (mkdtemp { st with store := store2 }))) := by
  unfold button_handler
  simp only [hsplit, hpop]

theorem button_handler_badcookies {st : BotState} (env : DlEnv)
    {data token fmt_id url : String} {store2 : TokenStore}
    (hsplit : pySplitUnpack2 data = some (token, fmt_id))
    (hpop : storePop st.store token = some (url, store2))
    (hcc : (st.cookiesPresent && !st.cookiesValid) = true) :
    button_handler st env data = (.cookiesCorrupted, { st with store := store2 }) := by
  rw [button_handler_resolved hsplit hpop]
  simp [hcc]

theorem button_handler_err {st : BotState} (env : DlEnv)
    {data token fmt_id url e : String} {store2 : TokenStore}
    (hsplit : pySplitUnpack2 data = some (token, fmt_id))
    (hpop : storePop st.store token = some (url, store2))
    (hcc : (st.cookiesPresent && !st.cookiesValid) = false)
    (hdl : download_format env url fmt_id = .error e) :
    button_handler st env data =
      (if pyIn signInMarker e then
        (.authRequired, rmtree (mkdtemp { st with store := store2 }))
      else (.downloadFailed e, rmtree (mkdtemp { st with store := store2 }))) := by
  rw [button_handler_resolved hsplit hpop]
  simp [hcc, hdl]

theorem button_handler_ok {st : BotState} (env : DlEnv)
    {data token fmt_id url : String} {store2 : TokenStore} {file : DFile}
    (hsplit : pySplitUnpack2 data = some (token, fmt_id))
    (hpop : storePop st.store token = some (url, store2))
    (hcc : (st.cookiesPresent && !st.cookiesValid) = false)
    (hdl : download_format env url fmt_id = .ok file) :
    button_handler st env data =
      (if file.size > TELEGRAM_FILE_LIMIT then
        (.fileTooLarge, rmtree (mkdtemp { st with store := store2 }))
      else (deliverOutcome (env.upload file),
        rmtree (mkdtemp { st with store := store2 }))) := by
  rw [button_handler_resolved hsplit hpop]
  simp [hcc, hdl]

theorem button_handler_store_after {st : BotState} (env : DlEnv)
    {data token fmt_id url : String}
    (hsplit : pySplitUnpack2 data = some (token, fmt_id))
    (hres : st.store token = some url) :
    (button_handler st env data).2.store =
      fun x => if x = token then none else st.store x := by
  rw [button_handler_resolved hsplit (storePop_hit hres)]
  repeat' split
  all_goals rfl

/-- C2: a successful resolution removes the token from the store, so a
second resolution attempt with the same callback data answers the
"Expired. Send the link again." failure; once resolved, the token is gone
from the store and never resolvable again. -/
theorem c2_token_single_use (st : BotState) (env env2 : DlEnv)
    (data token fmt_id url : String)
    (hsplit : pySplitUnpack2 data = some (token, fmt_id))
    (hres : st.store token = some url) :
    (button_handler st env data).2.store token = none ∧
    (button_handler (button_handler st env data).2 env2 data).1 = .expired := by
  have hstore := button_handler_store_after env hsplit hres
  have hnone : (button_handler st env data).2.store token = none := by
    rw [hstore]
    simp
  refine ⟨hnone, ?_⟩
  rw [button_handler_deadtoken hsplit (storePop_miss hnone)]

/-- C3: the handler's net effect on the number of live scoped temporary
directories is zero on every terminating path — the directory created
after a successful resolution is released under successful delivery,
`DownloadFailed` (including the auth-required variant), `FileTooLarge`,
and `DeliveryFailed`/timeout alike, and paths that never create it leave
the count untouched. -/
theorem c3_working_dir_released (st : BotState) (env : DlEnv) (data : String) :
    (button_handler st env data).2.liveDirs = st.liveDirs := by
  unfold button_handler
  repeat' split
  all_goals simp [mkdtemp, rmtree]

/-- C4: with the ceiling fixed at `2 * 1024 * 1024 * 1024` bytes, an
artifact of size at most the ceiling (in particular, exactly at it) is
handed to the Delivery Sink and the handler's reply is the sink's
outcome, while an artifact strictly over the ceiling is refused with
`FileTooLarge` and the handler's result does not depend on the Delivery
Sink at all — the sink is never invoked. -/
theorem c4_size_ceiling_boundary (st : BotState) (env : DlEnv)
    (data token fmt_id url : String) (files : List DFile) (file : DFile)
    (hsplit : pySplitUnpack2 data = some (token, fmt_id))
    (hres : st.store token = some url)
    (hcc : (st.cookiesPresent && !st.cookiesValid) = false)
    (hydl : env.ydl url fmt_id = .ok files)
    (hfind : files.find? (fun p => p.stem == "video") = some file) :
    (file.size ≤ TELEGRAM_FILE_LIMIT →
      (button_handler st env data).1 = deliverOutcome (env.upload file)) ∧
    (TELEGRAM_FILE_LIMIT < file.size →
      (button_handler st env data).1 = .fileTooLarge ∧
      ∀ up : DFile → UploadRes,
        button_handler st { ydl := env.ydl, upload := up } data =
          button_handler st env data) := by
  have hdl : download_format env url fmt_id = .ok file := by
    unfold download_format
    simp only [hydl, hfind]
  have hok := button_handler_ok env hsplit (storePop_hit hres) hcc hdl
  constructor
  · intro hle
    rw [hok, if_neg (by exact Nat.not_lt.mpr hle)]
  · intro hgt
    have hdl2 : download_format { ydl := env.ydl, upload := _ } url fmt_id = .ok file := hdl
    refine ⟨by rw [hok, if_pos hgt], fun up => ?_⟩
    have hok2 := button_handler_ok { ydl := env.ydl, upload := up }
      hsplit (storePop_hit hres) hcc hdl
    rw [hok, hok2, if_pos hgt, if_pos hgt]

/-- C6: when the downloader reports success but no file with the expected
stem `"video"` is present in the working directory, the handler surfaces
the same `DownloadFailed` outcome as any downloader failure (with the
`FileNotFoundError` message), not a crash or a distinct fatal condition,
and still releases the working directory. -/
theorem c6_missing_artifact_is_download_failure (st : BotState) (env : DlEnv)
    (data token fmt_id url : String) (files : List DFile)
    (hsplit : pySplitUnpack2 data = some (token, fmt_id))
    (hres : st.store token = some url)
    (hcc : (st.cookiesPresent && !st.cookiesValid) = false)
    (hydl : env.ydl url fmt_id = .ok files)
    (hfind : files.find? (fun p => p.stem == "video") = none) :
    (button_handler st env data).1 = .downloadFailed "Downloaded file not found" ∧
    (button_handler st env data).2.liveDirs = st.liveDirs := by
  have hdl : download_format env url fmt_id = .error "Downloaded file not found" := by
    unfold download_format
    simp only [hydl, hfind]
  have herr := button_handler_err env hsplit (storePop_hit hres) hcc hdl
  rw [herr, if_neg (by decide)]
  exact ⟨rfl, by simp [mkdtemp, rmtree]⟩

/-- C10: with cookies present but failing verification at button-press
time, the handler reports corruption and stops before creating a working
directory or invoking the downloader (its result is independent of the
download environment) — but the token was already popped, so it is gone
from the store and a retry of the same button deterministically reports
the expired-token failure: resolution is not rolled back. -/
theorem c10_corrupt_cookies_consume_token (st : BotState) (env : DlEnv)
    (data token fmt_id url : String)
    (hsplit : pySplitUnpack2 data = some (token, fmt_id))
    (hres : st.store token = some url)
    (hp : st.cookiesPresent = true) (hv : st.cookiesValid = false) :
    (button_handler st env data).1 = .cookiesCorrupted ∧
    (button_handler st env data).2.liveDirs = st.liveDirs ∧
    (button_handler st env data).2.store token = none ∧
    (∀ env2 : DlEnv, button_handler st env2 data = button_handler st env data) ∧
    (∀ env2 : DlEnv,
      (button_handler (button_handler st env data).2 env2 data).1 = .expired) := by
  have hcc : (st.cookiesPresent && !st.cookiesValid) = true := by
    rw [hp, hv]
    rfl
  have hbad := button_handler_badcookies env hsplit (storePop_hit hres) hcc
  have hstore : (button_handler st env data).2.store token = none := by
    rw [hbad]
    simp
  refine ⟨by rw [hbad], by rw [hbad], hstore, fun env2 => ?_, fun env2 => ?_⟩
  · rw [hbad, button_handler_badcookies env2 hsplit (storePop_hit hres) hcc]
  · rw [button_handler_deadtoken hsplit (storePop_miss hstore)]

/-- C9: under either interleaving of two concurrent resolution attempts
for the same live token, exactly one attempt obtains the pending request
and the other observes the expired-token failure — so the second
activation can never trigger a second download. -/
theorem c9_concurrent_single_winner (store : TokenStore) (t url : String)
    (aFirst : Bool) (hres : store t = some url) :
    ((twoResolveAttempts store t aFirst).1 = some url ∧
      (twoResolveAttempts store t aFirst).2 = none) ∨
    ((twoResolveAttempts store t aFirst).1 = none ∧
      (twoResolveAttempts store t aFirst).2 = some url) := by
  have hpop := storePop_hit hres
  have hpop2 : storePop (fun x => if x = t then none else store x) t = none :=
    storePop_miss (by simp)
  cases aFirst
  · right
    constructor <;> simp [twoResolveAttempts, hpop, hpop2]
  · left
    constructor <;> simp [twoResolveAttempts, hpop, hpop2]

theorem c2_witness :
    (button_handler wSt wEnv "t:f").2.store "t" = none ∧
    (button_handler (button_handler wSt wEnv "t:f").2 wEnv "t:f").1 = .expired :=
  c2_token_single_use wSt wEnv wEnv "t:f" "t" "f" "https://v" (by decide) (by decide)

theorem c4_witness :
    (button_handler wSt wEnvAtLimit "t:f").1 = .delivered ∧
    (button_handler wSt wEnvOverLimit "t:f").1 = .fileTooLarge :=
  ⟨((c4_size_ceiling_boundary wSt wEnvAtLimit "t:f" "t" "f" "https://v"
      [{ stem := "video", size := TELEGRAM_FILE_LIMIT }]
      { stem := "video", size := TELEGRAM_FILE_LIMIT }
      (by decide) (by decide) (by decide) rfl (by decide)).1
    (le_refl _)).trans rfl,
   ((c4_size_ceiling_boundary wSt wEnvOverLimit "t:f" "t" "f" "https://v"
      [{ stem := "video", size := TELEGRAM_FILE_LIMIT + 1 }]
      { stem := "video", size := TELEGRAM_FILE_LIMIT + 1 }
      (by decide) (by decide) (by decide) rfl (by decide)).2
    (by decide)).1⟩

theorem c6_witness :
    (button_handler wSt wEnvNoFile "t:f").1 =
      .downloadFailed "Downloaded file not found" ∧
    (button_handler wSt wEnvNoFile "t:f").2.liveDirs = wSt.liveDirs :=
  c6_missing_artifact_is_download_failure wSt wEnvNoFile "t:f" "t" "f" "https://v"
    [] (by decide) (by decide) (by decide) rfl rfl

theorem c9_witness :
    ((twoResolveAttempts wSt.store "t" true).1 = some "https://v" ∧
      (twoResolveAttempts wSt.store "t" true).2 = none) ∨
    ((twoResolveAttempts wSt.store "t" true).1 = none ∧
      (twoResolveAttempts wSt.store "t" true).2 = some "https://v") :=
  c9_concurrent_single_winner wSt.store "t" "https://v" true (by decide)

theorem c10_witness :
    (button_handler wStBadCookies wEnv "t:f").1 = .cookiesCorrupted ∧
    (button_handler wStBadCookies wEnv "t:f").2.liveDirs = wStBadCookies.liveDirs ∧
    (button_handler wStBadCookies wEnv "t:f").2.store "t" = none ∧
    (button_handler (button_handler wStBadCookies wEnv "t:f").2 wEnv "t:f").1 =
      .expired :=
  let h := c10_corrupt_cookies_consume_token wStBadCookies wEnv "t:f" "t" "f"
    "https://v" (by decide) (by decide) rfl rfl
  ⟨h.1, h.2.1, h.2.2.1, h.2.2.2.2 wEnv⟩

end TgBot
